import Mathlib

/-!
Verification of the Reminder-AI scheduling engine.

This file gives a shallow embedding of the reminder scheduling core of the
repository (src/context/AppContext.tsx, src/utils/timeUtils.ts,
src/components/SettingsPanel.tsx) and proves properties about it.

Conventions of the embedding:
* JavaScript timestamps (`Date.now()`, `endTime`, `targetDateTime`) are `Int`
  (milliseconds).  `Math.ceil((a - b) / 1000)` on integer inputs is exact
  integer ceiling division, embedded as `ceilDiv`.
* JavaScript `number | null` / optional fields are `Option Int`.
* The `while (nextTime <= now + 1000) nextTime += totalMs` loop is embedded by
  structural recursion on a fuel that is provably sufficient whenever
  `totalMs > 0`; when `totalMs ≤ 0` and the guard holds the source loop never
  terminates, which the embedding models by returning `none`.
* `NaN`-producing string parses are modeled by `Option Int` with every
  comparison against `none` being `false`, matching JS `NaN` comparisons.
-/

namespace ReminderAI

/-- Unit of an interval reminder (src/types.ts `IntervalUnit`). -/
inductive IntervalUnit where
  | seconds
  | minutes
  | hours
deriving DecidableEq

/-- Kind of a custom reminder (src/types.ts `ReminderType`). -/
inductive ReminderType where
  | interval
  | onetime
deriving DecidableEq

/-- Main-timer status (src/types.ts `AppStatus`). -/
inductive AppStatus where
  | idle
  | running
  | paused
  | waiting
  | alert_active
deriving DecidableEq

/-- Integer ceiling division by a positive divisor; embeds the JavaScript
`Math.ceil((a) / b)` applied to integer `a`, `b > 0`. -/
def ceilDiv (a b : Int) : Int := -(Int.ediv (-a) b)

/-- Unit multiplier used in the tick loop for custom reminders
(src/context/AppContext.tsx lines 818-820: default 60, `hours` 3600,
`seconds` 1, where the unit field may be absent). -/
def multiplierOpt (u : Option IntervalUnit) : Int :=
  if u = some IntervalUnit.hours then 3600
  else if u = some IntervalUnit.seconds then 1
  else 60

/-- Unit multiplier for the main reminder whose unit is always present
(src/context/AppContext.tsx `calculateTotalSeconds`). -/
def mainMultiplier (u : IntervalUnit) : Int :=
  match u with
  | IntervalUnit.hours => 3600
  | IntervalUnit.seconds => 1
  | IntervalUnit.minutes => 60

/-- The body of `calculateTotalSeconds` (src/context/AppContext.tsx lines
174-185): an unset (`''`) value yields 0, otherwise value times multiplier. -/
def calculateTotalSeconds (v : Option Int) (u : IntervalUnit) : Int :=
  match v with
  | none => 0
  | some n => n * mainMultiplier u

/-- Body of the anchor-advance loop
`while (nextTime <= now + 1000) { nextTime += totalMs; }`
(src/context/AppContext.tsx lines 833-835), unrolled on an explicit fuel. -/
def loopFuel (totalMs now : Int) : Nat → Int → Int
  | 0, t => t
  | Nat.succ n, t => if t ≤ now + 1000 then loopFuel totalMs now n (t + totalMs) else t

/-- A fuel that is sufficient for `loopFuel` to reach the loop's exit
condition whenever `totalMs > 0`. -/
def advanceFuel (totalMs now t : Int) : Nat :=
  (now + 1000 - t).toNat / totalMs.toNat + 1

/-- The anchor-advance `while` loop of the tick handler.  For a positive
period it returns the loop's exit value; for a non-positive period with the
guard initially true the source loop never terminates, modeled as `none`. -/
def whileAdvance (totalMs now t : Int) : Option Int :=
  if 0 < totalMs then some (loopFuel totalMs now (advanceFuel totalMs now t) t)
  else if t ≤ now + 1000 then none
  else some t

lemma loopFuel_gt_of_lt {totalMs now : Int} :
    ∀ (n : Nat) (t : Int), now + 1000 - t < n * totalMs →
      now + 1000 < loopFuel totalMs now n t := by
  intro n
  induction n with
  | zero => intro t h; simp [loopFuel]; omega
  | succ n ih =>
    intro t h
    by_cases hg : t ≤ now + 1000
    · rw [loopFuel, if_pos hg]
      apply ih
      have : (↑(n + 1) : Int) * totalMs = n * totalMs + totalMs := by push_cast; ring
      omega
    · rw [loopFuel, if_neg hg]; omega

lemma advanceFuel_sufficient {totalMs now t : Int} (hP : 0 < totalMs) :
    now + 1000 - t < (advanceFuel totalMs now t : Nat) * totalMs := by
  unfold advanceFuel
  set d : Int := now + 1000 - t with hd
  rcases le_or_lt d 0 with hneg | hpos
  · have : (0 : Int) < (((d.toNat / totalMs.toNat + 1 : Nat)) : Int) * totalMs := by
      apply mul_pos _ hP
      exact_mod_cast Nat.succ_pos _
    omega
  · have htn : (totalMs.toNat : Int) = totalMs := Int.toNat_of_nonneg hP.le
    have hdn : (d.toNat : Int) = d := Int.toNat_of_nonneg hpos.le
    have hPn : 0 < totalMs.toNat := by omega
    have hdiv := Nat.div_add_mod d.toNat totalMs.toNat
    have hmod := Nat.mod_lt d.toNat hPn
    have key : d.toNat < (d.toNat / totalMs.toNat + 1) * totalMs.toNat := by
      calc d.toNat = totalMs.toNat * (d.toNat / totalMs.toNat) + d.toNat % totalMs.toNat := hdiv.symm
        _ < totalMs.toNat * (d.toNat / totalMs.toNat) + totalMs.toNat :=
            Nat.add_lt_add_left hmod _
        _ = (d.toNat / totalMs.toNat + 1) * totalMs.toNat := by ring
    have : (d.toNat : Int) < ((d.toNat / totalMs.toNat + 1 : Nat) : Int) * (totalMs.toNat : Int) := by
      exact_mod_cast key
    rw [htn, hdn] at this
    omega

lemma loopFuel_id_of_gt {totalMs now t : Int} (h : now + 1000 < t) :
    ∀ n, loopFuel totalMs now n t = t := by
  intro n
  cases n with
  | zero => rfl
  | succ n => rw [loopFuel, if_neg (by omega)]

lemma loopFuel_anchor {totalMs now : Int} :
    ∀ (n : Nat) (t : Int), t ≤ now + 1000 → now + 1000 < loopFuel totalMs now n t →
      ∃ k : Nat, 1 ≤ k ∧ loopFuel totalMs now n t = t + k * totalMs ∧
        loopFuel totalMs now n t - totalMs ≤ now + 1000 := by
  intro n
  induction n with
  | zero => intro t hle hgt; rw [loopFuel] at hgt; omega
  | succ n ih =>
    intro t hle hgt
    rw [loopFuel, if_pos hle] at hgt ⊢
    by_cases hg : t + totalMs ≤ now + 1000
    · obtain ⟨k, hk1, hkeq, hkmin⟩ := ih (t + totalMs) hg hgt
      exact ⟨k + 1, by omega, by rw [hkeq]; push_cast; ring, hkmin⟩
    · rw [loopFuel_id_of_gt (by omega)]
      exact ⟨1, le_refl 1, by push_cast; ring, by omega⟩

lemma whileAdvance_some_spec {totalMs now t : Int} (hP : 0 < totalMs)
    (hle : t ≤ now + 1000) :
    ∃ v, whileAdvance totalMs now t = some v ∧ now + 1000 < v ∧
      (∃ k : Nat, 1 ≤ k ∧ v = t + k * totalMs) ∧ v - totalMs ≤ now + 1000 := by
  have hgt : now + 1000 < loopFuel totalMs now (advanceFuel totalMs now t) t :=
    loopFuel_gt_of_lt _ _ (advanceFuel_sufficient hP)
  obtain ⟨k, hk1, hkeq, hkmin⟩ := loopFuel_anchor _ t hle hgt
  exact ⟨_, by rw [whileAdvance, if_pos hP], hgt, ⟨k, hk1, hkeq⟩, hkmin⟩

lemma whileAdvance_none {totalMs now t : Int} (hP : totalMs ≤ 0)
    (hle : t ≤ now + 1000) : whileAdvance totalMs now t = none := by
  rw [whileAdvance, if_neg (by omega), if_pos hle]

lemma whileAdvance_some_gt {totalMs now t v : Int}
    (h : whileAdvance totalMs now t = some v) (hle : t ≤ now + 1000) :
    now + 1000 < v := by
  by_cases hP : 0 < totalMs
  · obtain ⟨w, hw, hgt, _, _⟩ := whileAdvance_some_spec hP hle
    rw [hw] at h
    injection h with h
    omega
  · rw [whileAdvance_none (by omega) hle] at h
    cases h

/-- Minimality of the anchor-advance result: any anchor-aligned value
(`t + j·P`, `j ≥ 1`) strictly beyond `now + 1000` is at least the loop's
result. -/
lemma anchor_minimal {totalMs now t v : Int} (hP : 0 < totalMs)
    (hkform : ∃ k : Nat, 1 ≤ k ∧ v = t + k * totalMs)
    (hmin : v - totalMs ≤ now + 1000) :
    ∀ w, (∃ j : Nat, 1 ≤ j ∧ w = t + j * totalMs) → now + 1000 < w → v ≤ w := by
  rintro w ⟨j, hj1, rfl⟩ hw
  obtain ⟨k, hk1, rfl⟩ := hkform
  rcases le_or_lt k j with hkj | hjk
  · have : (k : Int) * totalMs ≤ (j : Int) * totalMs := by
      apply mul_le_mul_of_nonneg_right _ hP.le
      exact_mod_cast hkj
    omega
  · have hjk' : j ≤ k - 1 := by omega
    have : (j : Int) * totalMs ≤ ((k - 1 : Nat) : Int) * totalMs := by
      apply mul_le_mul_of_nonneg_right _ hP.le
      exact_mod_cast hjk'
    have hcast : ((k - 1 : Nat) : Int) = (k : Int) - 1 := by omega
    rw [hcast] at this
    have : (j : Int) * totalMs ≤ (k : Int) * totalMs - totalMs := by
      have hexp : ((k : Int) - 1) * totalMs = (k : Int) * totalMs - totalMs := by ring
      omega
    omega

/-- A configured active-hours range (src/types.ts `TimeRange`); the source
field `end` is called `endT` here because `end` is reserved in Lean. -/
structure TimeRange where
  id : String
  start : String
  endT : String
deriving DecidableEq

/-- JavaScript `s.split(':')` on the character list of `s` (structural
recursion so that concrete instances evaluate): splitting the empty string
gives one empty piece, as in JS. -/
def splitOnColon : List Char → List (List Char)
  | [] => [[]]
  | c :: rest =>
    if c = ':' then [] :: splitOnColon rest
    else
      match splitOnColon rest with
      | [] => [[c]]
      | h :: t => (c :: h) :: t

/-- Digit-string value, `none` when a non-digit occurs. -/
def digitsVal (cs : List Char) : Option Nat :=
  cs.foldl
    (fun acc c =>
      match acc with
      | none => none
      | some n => if c.isDigit then some (n * 10 + (c.toNat - '0'.toNat)) else none)
    (some 0)

/-- JavaScript `Number` on a "HH" / "MM" piece: the empty string is 0, a
digit string is its value, anything else is `NaN` (`none`).
Fractional/signed/exponent forms are outside the data the app produces and
are mapped to `none`. -/
def jsNumChars (cs : List Char) : Option Int :=
  if cs = [] then some 0 else (digitsVal cs).map Int.ofNat

/-- Embeds `const [h, m] = s.split(':').map(Number); h * 60 + m`
(src/utils/timeUtils.ts lines 212-216); a missing or non-numeric piece makes
the sum `NaN` (`none`). -/
def parseMinutes (s : String) : Option Int :=
  match splitOnColon s.data with
  | h :: m :: _ =>
    match jsNumChars h, jsNumChars m with
    | some hh, some mm => some (hh * 60 + mm)
    | _, _ => none
  | _ => none

/-- JavaScript `<` where either side may be `NaN`: any comparison with `NaN`
is false. -/
def jsLt (a b : Option Int) : Bool :=
  match a, b with
  | some x, some y => decide (x < y)
  | _, _ => false

/-- JavaScript `<=` where either side may be `NaN`. -/
def jsLe (a b : Option Int) : Bool :=
  match a, b with
  | some x, some y => decide (x ≤ y)
  | _, _ => false

/-- The per-range predicate inside `isWithinActiveHours`
(src/utils/timeUtils.ts lines 209-224): blank bounds never match; a range
with `end > start` matches `start ≤ t < end`; otherwise the range is treated
as crossing midnight and matches `t ≥ start` or `t < end`. -/
def rangeActive (currentTime : Int) (range : TimeRange) : Bool :=
  if range.start = "" ∨ range.endT = "" then false
  else
    let startTime := parseMinutes range.start
    let endTime := parseMinutes range.endT
    if jsLt startTime endTime then
      jsLe startTime (some currentTime) && jsLt (some currentTime) endTime
    else
      jsLe startTime (some currentTime) || jsLt (some currentTime) endTime

/-- Embeds `isWithinActiveHours` (src/utils/timeUtils.ts lines 203-225) with
the wall-clock minute-of-day `currentTime` made an explicit argument. -/
def isWithinActiveHours (currentTime : Int) (ranges : List TimeRange) : Bool :=
  if ranges.isEmpty then true
  else ranges.any (rangeActive currentTime)

/-- A custom reminder definition (src/types.ts `CustomReminder`).  The
`pausedRemainingTime` field never enters the scheduling logic and is
omitted. -/
structure CustomReminder where
  id : String
  title : String
  type : ReminderType
  enabled : Bool
  intervalValue : Option Int
  intervalUnit : Option IntervalUnit
  nextTriggerTime : Option Int
  targetDateTime : Option Int
deriving DecidableEq

/-- Per-reminder timer state (src/context/AppContext.tsx `TimerState`):
`timeLeft` in seconds, `endTime` an absolute ms timestamp or `null`. -/
structure TimerState where
  timeLeft : Int
  endTime : Option Int
deriving DecidableEq

/-- Lookup in the id-keyed timer-state record (`customTimerStatesRef`). -/
def lookupState : List (String × TimerState) → String → Option TimerState
  | [], _ => none
  | p :: l, k => if p.1 = k then some p.2 else lookupState l k

/-- Write-through of `nextStates[r.id] = v` for a key already present. -/
def updState : List (String × TimerState) → String → TimerState →
    List (String × TimerState)
  | [], _, _ => []
  | p :: l, k, v => if p.1 = k then (k, v) :: updState l k v else p :: updState l k v

/-- Accumulated result of one pass of the custom-reminder section of the tick
handler: the evolving `nextStates` record plus the deferred side-effect lists
`alertsToTrigger`, `remindersToRemove`, `remindersToUpdate`
(src/context/AppContext.tsx lines 774-781). -/
structure TickOutcome where
  states : List (String × TimerState)
  alertsToTrigger : List String
  remindersToRemove : List String
  remindersToUpdate : List (String × Int)
deriving DecidableEq

/-- Embeds the body of `settings.customReminders.forEach(r => ...)` in the
tick handler (src/context/AppContext.tsx lines 784-846) for one reminder.
`none` means the source's `while` loop diverges on this reminder (degenerate
period), so the tick never completes. -/
def tickStep (systemSlept : Bool) (now : Int) (acc : TickOutcome)
    (r : CustomReminder) : Option TickOutcome :=
  if r.enabled = false then some acc
  else
    match lookupState acc.states r.id with
    | none => some acc
    | some st =>
      match st.endTime with
      | none => some acc
      | some e =>
        if e = 0 then some acc
        else
          let diff := ceilDiv (e - now) 1000
          if diff ≤ 0 then
            let isOverdue := decide (diff < -3)
            let shouldAlert := !(systemSlept || isOverdue)
            let alerts :=
              if shouldAlert then acc.alertsToTrigger ++ [r.id] else acc.alertsToTrigger
            let removes :=
              if shouldAlert = false ∧ r.type = ReminderType.onetime then
                acc.remindersToRemove ++ [r.id]
              else acc.remindersToRemove
            if r.type = ReminderType.interval then
              let totalMs := (r.intervalValue.getD 0) * multiplierOpt r.intervalUnit * 1000
              let t1 := if e < now - totalMs * 100 then now else e
              match whileAdvance totalMs now t1 with
              | none => none
              | some nt =>
                some { states := updState acc.states r.id
                         { timeLeft := ceilDiv (nt - now) 1000, endTime := some nt },
                       alertsToTrigger := alerts,
                       remindersToRemove := removes,
                       remindersToUpdate := acc.remindersToUpdate ++ [(r.id, nt)] }
            else
              some { states := updState acc.states r.id { timeLeft := 0, endTime := none },
                     alertsToTrigger := alerts,
                     remindersToRemove := removes,
                     remindersToUpdate := acc.remindersToUpdate }
          else
            if st.timeLeft ≠ diff then
              some { acc with states := updState acc.states r.id { st with timeLeft := diff } }
            else some acc

/-- The whole custom-reminder pass of one tick over the reminder list. -/
def processTick (systemSlept : Bool) (now : Int) (reminders : List CustomReminder)
    (initStates : List (String × TimerState)) : Option TickOutcome :=
  reminders.foldl (fun acc r => acc.bind fun o => tickStep systemSlept now o r)
    (some { states := initStates, alertsToTrigger := [], remindersToRemove := [],
            remindersToUpdate := [] })

/-- Embeds the deferred side effects of the tick (src/context/AppContext.tsx
lines 853-888): every id in `alertsToTrigger` is added to the active-alert
set, skipped one-time reminders are filtered out of the collection, and
interval reminders get their persisted `nextTriggerTime` updated.  Returns
the new reminder collection and the new active-alert set. -/
def applyTickSideEffects (o : TickOutcome) (reminders : List CustomReminder)
    (activeAlerts : List String) : List CustomReminder × List String :=
  let afterRemove := reminders.filter fun r => decide (r.id ∉ o.remindersToRemove)
  let afterUpdate := afterRemove.map fun r =>
    match o.remindersToUpdate.find? (fun u => decide (u.1 = r.id)) with
    | some u => { r with nextTriggerTime := some u.2 }
    | none => r
  let alerts := o.alertsToTrigger.foldl
    (fun s i => if i ∈ s then s else s ++ [i]) activeAlerts
  (afterUpdate, alerts)

/-- The slice of `AppSettings` (src/types.ts) consumed by the scheduling
engine.  `intervalValue : number | ''` is `Option Int` (`none` = `''`); the
message fragments keep their source meaning but are named with a `Txt`
ending. -/
structure Settings where
  intervalValue : Option Int
  intervalUnit : IntervalUnit
  messagePrefixTxt : String
  messageSuffixTxt : String
  activeHoursEnabled : Bool
  activeHoursRanges : List TimeRange
  customReminders : List CustomReminder
deriving DecidableEq

/-- Main-timer portion of the provider state: `status`, `endTime`,
`timeLeft`. -/
structure MainTimer where
  status : AppStatus
  endTime : Option Int
  timeLeft : Int
deriving DecidableEq

/-- JavaScript `s.trim().length > 0`: the string contains a non-whitespace
character. -/
def hasNonBlank (s : String) : Bool :=
  s.data.any fun c => !c.isWhitespace

/-- The `hasText` check of `triggerAlert`/the tick (src/context/AppContext.tsx
lines 507, 922): at least one message fragment is non-blank after trim. -/
def mainHasText (s : Settings) : Bool :=
  hasNonBlank s.messagePrefixTxt || hasNonBlank s.messageSuffixTxt

/-- The `hasInterval` check (src/context/AppContext.tsx lines 510, 923):
`intervalValue` is set, numeric and strictly positive. -/
def mainHasInterval (s : Settings) : Bool :=
  match s.intervalValue with
  | none => false
  | some n => decide (0 < n)

/-- Whether `triggerAlert('main')` passes its validation and fires
(src/context/AppContext.tsx lines 502-515): it returns `false` exactly when
the interval or the combined message text is missing. -/
def triggerAlertMainFires (s : Settings) : Bool :=
  mainHasInterval s && mainHasText s

/-- The state written by `startTimers` (src/context/AppContext.tsx lines
472-482). -/
def startTimersState (s : Settings) (now : Int) : MainTimer :=
  let mainTotal := calculateTotalSeconds s.intervalValue s.intervalUnit
  { status := AppStatus.running, endTime := some (now + mainTotal * 1000),
    timeLeft := mainTotal }

/-- Embeds the main-timer portion of the tick handler
(src/context/AppContext.tsx lines 890-980): the active-hours gate
transitions followed by the guarded countdown.  `isWork` stands for the
wall-clock dependent `isWorkDay(...)` result and `curMin` for the current
minute of day fed to `isWithinActiveHours`.  Returns the new main-timer
state and whether `triggerAlert('main')` fired on this tick. -/
def mainTick (s : Settings) (isWork : Bool) (curMin : Int) (systemSlept : Bool)
    (mainAlertActive : Bool) (now : Int) (m : MainTimer) : MainTimer × Bool :=
  let total := calculateTotalSeconds s.intervalValue s.intervalUnit
  let shouldTick0 := decide (m.status = AppStatus.running)
  let gate : MainTimer × Bool :=
    if s.activeHoursEnabled then
      let isActive := isWithinActiveHours curMin s.activeHoursRanges
      if isWork = false then
        (if m.status ≠ AppStatus.waiting ∧ m.status ≠ AppStatus.alert_active then
           { m with status := AppStatus.waiting, endTime := none, timeLeft := total }
         else m, false)
      else if isActive then
        (if m.status ≠ AppStatus.running ∧ m.status ≠ AppStatus.alert_active then
           startTimersState s now
         else m, shouldTick0)
      else
        (if m.status ≠ AppStatus.waiting ∧ m.status ≠ AppStatus.alert_active then
           { m with status := AppStatus.waiting, endTime := none, timeLeft := total }
         else m, false)
    else (m, shouldTick0)
  let m1 := gate.1
  if gate.2 then
    if mainHasInterval s = false then
      ({ m1 with timeLeft := 0, endTime := none }, false)
    else if mainHasText s = false then
      let frozenTotal := (s.intervalValue.getD 0) * mainMultiplier s.intervalUnit
      ({ m1 with timeLeft := frozenTotal, endTime := none }, false)
    else
      match m1.endTime with
      | some e =>
        let diff := ceilDiv (e - now) 1000
        if diff ≤ 0 then
          let shouldAlertMain0 := !(systemSlept || decide (diff < -10))
          let shouldAlertMain :=
            if 5 < diff.natAbs ∧ shouldAlertMain0 = false then false else shouldAlertMain0
          if shouldAlertMain then
            if mainAlertActive then ({ m1 with timeLeft := 0 }, false)
            else ({ status := AppStatus.alert_active, endTime := none, timeLeft := 0 }, true)
          else
            ({ m1 with endTime := some (now + total * 1000), timeLeft := total }, false)
        else ({ m1 with timeLeft := diff }, false)
      | none =>
        if 0 < m1.timeLeft then
          ({ m1 with endTime := some (now + m1.timeLeft * 1000) }, false)
        else (m1, false)
  else (m1, false)

/-- Per-tick environment for iterating `mainTick` over several ticks. -/
structure TickEnv where
  isWork : Bool
  curMin : Int
  systemSlept : Bool
  mainAlertActive : Bool
  now : Int

/-- Iterate the main-timer tick over a sequence of tick environments. -/
def mainTickRun (s : Settings) (envs : List TickEnv) (m : MainTimer) : MainTimer :=
  envs.foldl
    (fun mm e => (mainTick s e.isWork e.curMin e.systemSlept e.mainAlertActive e.now mm).1)
    m

/-- Display snapshot captured when an alert fires (`notificationSnapshots`). -/
structure Snapshot where
  title : String
  message : String
deriving DecidableEq

/-- The engine state touched by `dismissNotification`
(src/context/AppContext.tsx lines 577-633): the settings (for the reminder
collection), the snapshot map, the active-alert set and the main timer. -/
structure EngineState where
  settings : Settings
  snapshots : List (String × Snapshot)
  activeAlerts : List String
  status : AppStatus
  endTime : Option Int
  timeLeft : Int
  totalTime : Int
deriving DecidableEq

/-- The spent-one-time cleanup step of `dismissNotification`
(src/context/AppContext.tsx lines 581-589): if the dismissed id names a
OneTime reminder with a truthy `targetDateTime` at most `now + 1000`, drop it
from the collection. -/
def dismissReminders (now : Int) (id : String) (l : List CustomReminder) :
    List CustomReminder :=
  match l.find? (fun r => decide (r.id = id)) with
  | some r =>
    if r.type = ReminderType.onetime then
      match r.targetDateTime with
      | some t =>
        if t ≠ 0 ∧ t ≤ now + 1000 then l.filter fun r2 => decide (¬ r2.id = id)
        else l
      | none => l
    else l
  | none => l

/-- Embeds `dismissNotification` (src/context/AppContext.tsx lines 577-633).
`isWork` stands for the `isWorkDay(...)` result and `curMin` for the current
minute of day used by `isWithinActiveHours`; audio and IPC plumbing carry no
engine state and are not modeled. -/
def dismissNotification (now : Int) (isWork : Bool) (curMin : Int) (id : String)
    (st : EngineState) : EngineState :=
  let st1 := { st with settings :=
    { st.settings with customReminders := dismissReminders now id st.settings.customReminders } }
  let st2 := { st1 with snapshots := st1.snapshots.filter fun p => decide (¬ p.1 = id) }
  let st3 := { st2 with activeAlerts := st2.activeAlerts.filter fun a => decide (¬ a = id) }
  if id = "main" then
    let total := calculateTotalSeconds st3.settings.intervalValue st3.settings.intervalUnit
    let st4 := { st3 with totalTime := total }
    if st4.settings.activeHoursEnabled = true ∧
        (isWork = false ∨ isWithinActiveHours curMin st4.settings.activeHoursRanges = false) then
      { st4 with status := AppStatus.waiting, endTime := none, timeLeft := total }
    else
      { st4 with status := AppStatus.running, endTime := some (now + total * 1000),
                 timeLeft := total }
  else st3

/-- Module-level holiday cache state (src/utils/timeUtils.ts lines 90-93). -/
structure HolidayState where
  holidaysCache : List String
  fetchedYears : List Int
  isFetching : Bool
deriving DecidableEq

/-- Outcome of the external holiday fetch for one year: network/HTTP/JSON
failure (the `catch` path), a response without a `days` array, or a list of
`(date, isOffDay)` entries. -/
inductive FetchResult where
  | failure
  | badShape
  | success (days : List (String × Bool))
deriving DecidableEq

/-- `Set.add` on the cache modeled on lists. -/
def addOnce (l : List String) (x : String) : List String :=
  if x ∈ l then l else l ++ [x]

/-- Embeds `fetchSpecificYear` (src/utils/timeUtils.ts lines 98-125) with the
network call's outcome as an explicit argument: skip an already fetched year;
on success merge all `isOffDay` dates and mark the year fetched; on failure
or a malformed payload change nothing. -/
def fetchSpecificYear (year : Int) (res : FetchResult) (st : HolidayState) :
    HolidayState :=
  if year ∈ st.fetchedYears then st
  else
    match res with
    | FetchResult.failure => st
    | FetchResult.badShape => st
    | FetchResult.success days =>
      { st with
        holidaysCache := days.foldl (fun c d => if d.2 then addOnce c d.1 else c)
          st.holidaysCache,
        fetchedYears := st.fetchedYears ++ [year] }

/-- Embeds `updateHolidays` (src/utils/timeUtils.ts lines 130-148): no-op when
a fetch is in flight, otherwise fetch the current year and, in December, also
pre-fetch next year, clearing the in-flight flag at the end. -/
def updateHolidays (currentYear : Int) (isDecember : Bool) (res1 res2 : FetchResult)
    (st : HolidayState) : HolidayState :=
  if st.isFetching then st
  else
    let st1 := { st with isFetching := true }
    let st2 := fetchSpecificYear currentYear res1 st1
    let st3 := if isDecember then fetchSpecificYear (currentYear + 1) res2 st2 else st2
    { st3 with isFetching := false }

/-- The accept/reject decision of `saveCustomReminder`
(src/components/SettingsPanel.tsx lines 566-585): a blank title is rejected;
a one-time reminder needs a set date-time not in the past; an interval
reminder is rejected unless its value is strictly positive (`''` counts
as 0). -/
def saveCustomReminderAccepts (title : String) (rType : ReminderType)
    (newValue : Option Int) (targetTime : Option Int) (now : Int) : Bool :=
  if hasNonBlank title = false then false
  else
    match rType with
    | ReminderType.onetime =>
      match targetTime with
      | none => false
      | some t => decide (¬ t < now)
    | ReminderType.interval => decide (¬ newValue.getD 0 ≤ 0)

/-! Helper lemmas. -/

lemma rangeActive_iff {t s e : Int} {r : TimeRange}
    (hs : r.start ≠ "") (he : r.endT ≠ "")
    (hps : parseMinutes r.start = some s) (hpe : parseMinutes r.endT = some e) :
    (rangeActive t r = true ↔ if s < e then s ≤ t ∧ t < e else s ≤ t ∨ t < e) := by
  rw [rangeActive, if_neg (by simp [hs, he])]
  simp only [hps, hpe, jsLt, jsLe]
  by_cases hlt : s < e
  · simp [hlt]
  · simp [hlt]

/-! Claim theorems. -/

/-- C5 (confirmed): `isWithinActiveHours` is true on an empty ranges list;
on a non-empty list of well-formed ranges it is true iff the minute-of-day
falls in some range, where `end > start` means `start ≤ t < end` and
`end ≤ start` crosses midnight (`t ≥ start` or `t < end`); and it takes the
claimed values on the concrete example ranges: with 09:00-12:00 and
13:00-18:00 it is true at 10:00, false at 12:30, true at 14:00, false at
20:00, and with 22:00-06:00 it is true at 23:00 and 02:00 and false at
10:00. -/
theorem active_hours_gate :
    (∀ t : Int, isWithinActiveHours t [] = true) ∧
    (∀ (t : Int) (ranges : List TimeRange), ranges ≠ [] →
      (∀ r ∈ ranges, r.start ≠ "" ∧ r.endT ≠ "" ∧
        (parseMinutes r.start).isSome ∧ (parseMinutes r.endT).isSome) →
      (isWithinActiveHours t ranges = true ↔
        ∃ r ∈ ranges, ∃ s e : Int, parseMinutes r.start = some s ∧
          parseMinutes r.endT = some e ∧
          (if s < e then s ≤ t ∧ t < e else s ≤ t ∨ t < e))) ∧
    (isWithinActiveHours 600 [⟨"1", "09:00", "12:00"⟩, ⟨"2", "13:00", "18:00"⟩] = true ∧
     isWithinActiveHours 750 [⟨"1", "09:00", "12:00"⟩, ⟨"2", "13:00", "18:00"⟩] = false ∧
     isWithinActiveHours 840 [⟨"1", "09:00", "12:00"⟩, ⟨"2", "13:00", "18:00"⟩] = true ∧
     isWithinActiveHours 1200 [⟨"1", "09:00", "12:00"⟩, ⟨"2", "13:00", "18:00"⟩] = false) ∧
    (isWithinActiveHours 1380 [⟨"3", "22:00", "06:00"⟩] = true ∧
     isWithinActiveHours 120 [⟨"3", "22:00", "06:00"⟩] = true ∧
     isWithinActiveHours 600 [⟨"3", "22:00", "06:00"⟩] = false) := by
  refine ⟨fun t => rfl, ?_, by decide, by decide⟩
  intro t ranges hne hwf
  have hne' : ranges.isEmpty = false := by
    cases ranges with
    | nil => exact absurd rfl hne
    | cons a l => rfl
  rw [isWithinActiveHours, if_neg (by simp [hne']), List.any_eq_true]
  constructor
  · rintro ⟨r, hr, hmatch⟩
    obtain ⟨hs, he, hps, hpe⟩ := hwf r hr
    obtain ⟨s, hseq⟩ := Option.isSome_iff_exists.mp hps
    obtain ⟨e, heq⟩ := Option.isSome_iff_exists.mp hpe
    exact ⟨r, hr, s, e, hseq, heq, (rangeActive_iff hs he hseq heq).mp hmatch⟩
  · rintro ⟨r, hr, s, e, hseq, heq, hcond⟩
    obtain ⟨hs, he, _, _⟩ := hwf r hr
    exact ⟨r, hr, (rangeActive_iff hs he hseq heq).mpr hcond⟩

/-- Witness for C5: the characterization applied to the concrete range
09:00-12:00 at 10:00. -/
theorem active_hours_gate_witness :
    ([(⟨"1", "09:00", "12:00"⟩ : TimeRange)] ≠ []) ∧
    (isWithinActiveHours 600 [⟨"1", "09:00", "12:00"⟩] = true ↔
      ∃ r ∈ [(⟨"1", "09:00", "12:00"⟩ : TimeRange)], ∃ s e : Int,
        parseMinutes r.start = some s ∧ parseMinutes r.endT = some e ∧
        (if s < e then s ≤ 600 ∧ 600 < e else s ≤ 600 ∨ 600 < e)) :=
  ⟨by decide, active_hours_gate.2.1 600 [⟨"1", "09:00", "12:00"⟩] (by decide) (by decide)⟩

/-- C7 (confirmed): with active-hours gating enabled, a tick that finds the
main reminder in `alert_active` leaves its status, `endTime` and `timeLeft`
untouched and fires nothing; the calendar-gate transitions never override an
outstanding alert. -/
theorem alert_active_not_overridden (s : Settings) (isWork : Bool) (curMin : Int)
    (systemSlept mainAlertActive : Bool) (now : Int) (m : MainTimer)
    (hen : s.activeHoursEnabled = true) (hst : m.status = AppStatus.alert_active) :
    mainTick s isWork curMin systemSlept mainAlertActive now m = (m, false) := by
  rw [mainTick]
  cases isWork <;> cases hact : isWithinActiveHours curMin s.activeHoursRanges <;>
    simp [hen, hst, hact]

/-- Witness for C7: a concrete alert-active state survives a gated tick
unchanged. -/
theorem alert_active_not_overridden_witness :
    (⟨some 5, IntervalUnit.minutes, "walk", "", true, [], []⟩ : Settings).activeHoursEnabled
        = true ∧
    mainTick ⟨some 5, IntervalUnit.minutes, "walk", "", true, [], []⟩ true 600 false false 0
        ⟨AppStatus.alert_active, none, 0⟩ =
      (⟨AppStatus.alert_active, none, 0⟩, false) :=
  ⟨rfl, alert_active_not_overridden _ _ _ _ _ _ _ rfl rfl⟩

lemma multiplierOpt_pos (u : Option IntervalUnit) : 0 < multiplierOpt u := by
  rw [multiplierOpt]
  split
  · norm_num
  · split <;> norm_num

lemma addOnce_subset (l : List String) (x : String) : l ⊆ addOnce l x := by
  rw [addOnce]
  split
  · exact List.Subset.refl l
  · exact List.subset_append_left l [x]

lemma holidayFold_subset (days : List (String × Bool)) :
    ∀ l : List String,
      l ⊆ days.foldl (fun c d => if d.2 then addOnce c d.1 else c) l := by
  induction days with
  | nil => intro l; exact List.Subset.refl l
  | cons d ds ih =>
    intro l
    rw [List.foldl_cons]
    refine List.Subset.trans ?_ (ih _)
    split
    · exact addOnce_subset l d.1
    · exact List.Subset.refl l

lemma fetchSpecificYear_cache_subset (year : Int) (res : FetchResult)
    (st : HolidayState) :
    st.holidaysCache ⊆ (fetchSpecificYear year res st).holidaysCache := by
  rw [fetchSpecificYear.eq_def]
  split
  · exact List.Subset.refl _
  · match res with
    | FetchResult.failure => exact List.Subset.refl _
    | FetchResult.badShape => exact List.Subset.refl _
    | FetchResult.success days => exact holidayFold_subset days _

/-- C6 (confirmed): with a validated strictly positive period the
anchor-advance loop strictly increases its candidate time on every iteration
and terminates with a value strictly more than one second in the future;
with a degenerate (zero or negative) period the pending candidate never
advances and the loop diverges (`none`); and `saveCustomReminder` rejects a
non-positive interval upstream, so an accepted interval reminder always has
a strictly positive period in milliseconds. -/
theorem reschedule_termination :
    (∀ (totalMs now : Int) (fuel : Nat) (t : Int), 0 < totalMs → t ≤ now + 1000 →
      loopFuel totalMs now (fuel + 1) t = loopFuel totalMs now fuel (t + totalMs) ∧
        t < t + totalMs) ∧
    (∀ totalMs now t : Int, 0 < totalMs → t ≤ now + 1000 →
      ∃ v, whileAdvance totalMs now t = some v ∧ now + 1000 < v) ∧
    (∀ totalMs now t : Int, totalMs ≤ 0 → t ≤ now + 1000 →
      whileAdvance totalMs now t = none) ∧
    (∀ (title : String) (newValue targetTime : Option Int) (now : Int)
        (u : Option IntervalUnit),
      saveCustomReminderAccepts title ReminderType.interval newValue targetTime now = true →
      0 < newValue.getD 0 * multiplierOpt u * 1000) := by
  refine ⟨?_, ?_, ?_, ?_⟩
  · intro totalMs now fuel t hP hle
    exact ⟨by rw [loopFuel, if_pos hle], by omega⟩
  · intro totalMs now t hP hle
    obtain ⟨v, hv, hgt, _, _⟩ := whileAdvance_some_spec hP hle
    exact ⟨v, hv, hgt⟩
  · intro totalMs now t hP hle
    exact whileAdvance_none hP hle
  · intro title newValue targetTime now u hacc
    rw [saveCustomReminderAccepts] at hacc
    split at hacc
    · cases hacc
    · simp only [decide_eq_true_eq] at hacc
      have h1 : 0 < newValue.getD 0 := by omega
      have h2 := multiplierOpt_pos u
      positivity

/-- Witness for C6: each part applied at a concrete input (period one
minute, or zero for the degenerate part). -/
theorem reschedule_termination_witness :
    (loopFuel 60000 0 1 0 = loopFuel 60000 0 0 60000 ∧ (0 : Int) < 0 + 60000) ∧
    (∃ v, whileAdvance 60000 0 0 = some v ∧ (0 : Int) + 1000 < v) ∧
    whileAdvance 0 0 0 = none ∧
    (0 : Int) < (some 5 : Option Int).getD 0 * multiplierOpt (some IntervalUnit.minutes) * 1000 :=
  ⟨reschedule_termination.1 60000 0 0 0 (by decide) (by decide),
   reschedule_termination.2.1 60000 0 0 (by decide) (by decide),
   reschedule_termination.2.2.1 0 0 0 (by decide) (by decide),
   reschedule_termination.2.2.2 "drink water" (some 5) none 0 (some IntervalUnit.minutes)
     (by decide)⟩

/-- C8 (confirmed): a year joins the fetched-years set only through a
successful fetch; a failed fetch changes nothing (so the year is retried
later); the holidays cache only ever grows, both per fetch and per
`updateHolidays` run; and `updateHolidays` is a silent no-op while a fetch
is in flight. -/
theorem holiday_cache_robust :
    (∀ (year : Int) (res : FetchResult) (st : HolidayState) (y : Int),
      y ∈ (fetchSpecificYear year res st).fetchedYears →
      y ∈ st.fetchedYears ∨ (y = year ∧ ∃ days, res = FetchResult.success days)) ∧
    (∀ (year : Int) (st : HolidayState),
      fetchSpecificYear year FetchResult.failure st = st) ∧
    (∀ (year : Int) (res : FetchResult) (st : HolidayState),
      st.holidaysCache ⊆ (fetchSpecificYear year res st).holidaysCache) ∧
    (∀ (cy : Int) (dec : Bool) (r1 r2 : FetchResult) (st : HolidayState),
      st.holidaysCache ⊆ (updateHolidays cy dec r1 r2 st).holidaysCache) ∧
    (∀ (cy : Int) (dec : Bool) (r1 r2 : FetchResult) (st : HolidayState),
      st.isFetching = true → updateHolidays cy dec r1 r2 st = st) := by
  refine ⟨?_, ?_, fetchSpecificYear_cache_subset, ?_, ?_⟩
  · intro year res st y hy
    rw [fetchSpecificYear.eq_def] at hy
    split at hy
    · exact Or.inl hy
    · match res with
      | FetchResult.failure => exact Or.inl hy
      | FetchResult.badShape => exact Or.inl hy
      | FetchResult.success days =>
        simp only [List.mem_append, List.mem_singleton] at hy
        rcases hy with hy | hy
        · exact Or.inl hy
        · exact Or.inr ⟨hy, days, rfl⟩
  · intro year st
    rw [fetchSpecificYear.eq_def]
    split <;> rfl
  · intro cy dec r1 r2 st
    rw [updateHolidays]
    split
    · exact List.Subset.refl _
    · refine List.Subset.trans (fetchSpecificYear_cache_subset cy r1 { st with isFetching := true }) ?_
      split
      · exact fetchSpecificYear_cache_subset (cy + 1) r2 _
      · exact List.Subset.refl _
  · intro cy dec r1 r2 st hf
    rw [updateHolidays, if_pos hf]

/-- Witness for C8: each part applied to a concrete cache state. -/
theorem holiday_cache_robust_witness :
    (2024 ∈ (fetchSpecificYear 2024 (FetchResult.success [("2024-01-01", true)])
        ⟨[], [], false⟩).fetchedYears →
      2024 ∈ ([] : List Int) ∨ ((2024 : Int) = 2024 ∧
        ∃ days, FetchResult.success [("2024-01-01", true)] = FetchResult.success days)) ∧
    fetchSpecificYear 2024 FetchResult.failure ⟨["2023-01-01"], [2023], false⟩ =
      ⟨["2023-01-01"], [2023], false⟩ ∧
    ["2023-01-01"] ⊆ (fetchSpecificYear 2024 (FetchResult.success [("2024-01-01", true)])
      ⟨["2023-01-01"], [2023], false⟩).holidaysCache ∧
    ["2023-01-01"] ⊆ (updateHolidays 2024 false FetchResult.failure FetchResult.failure
      ⟨["2023-01-01"], [2023], false⟩).holidaysCache ∧
    updateHolidays 2024 false FetchResult.failure FetchResult.failure
      ⟨["2023-01-01"], [2023], true⟩ = ⟨["2023-01-01"], [2023], true⟩ :=
  ⟨holiday_cache_robust.1 2024 (FetchResult.success [("2024-01-01", true)]) ⟨[], [], false⟩ 2024,
   holiday_cache_robust.2.1 2024 ⟨["2023-01-01"], [2023], false⟩,
   holiday_cache_robust.2.2.1 2024 (FetchResult.success [("2024-01-01", true)])
     ⟨["2023-01-01"], [2023], false⟩,
   holiday_cache_robust.2.2.2.1 2024 false FetchResult.failure FetchResult.failure
     ⟨["2023-01-01"], [2023], false⟩,
   holiday_cache_robust.2.2.2.2 2024 false FetchResult.failure FetchResult.failure
     ⟨["2023-01-01"], [2023], true⟩ rfl⟩

lemma ceilDiv_1000_nonpos {a : Int} : ceilDiv a 1000 ≤ 0 ↔ a ≤ 0 := by
  rw [ceilDiv]
  have hdef : Int.ediv (-a) 1000 = -a / 1000 := rfl
  have h1 := Int.ediv_add_emod (-a) 1000
  have h2 := Int.emod_nonneg (-a) (by norm_num : (1000 : Int) ≠ 0)
  have h3 := Int.emod_lt_of_pos (-a) (by norm_num : (0 : Int) < 1000)
  omega

lemma lookupState_updState_self {l : List (String × TimerState)} {k : String}
    {st v : TimerState} (h : lookupState l k = some st) :
    lookupState (updState l k v) k = some v := by
  induction l with
  | nil => cases h
  | cons p l ih =>
    rw [lookupState] at h
    by_cases hp : p.1 = k
    · rw [updState, if_pos hp, lookupState, if_pos rfl]
    · rw [if_neg hp] at h
      rw [updState, if_neg hp, lookupState, if_neg hp]
      exact ih h

lemma lookupState_updState_ne {k k' : String} (h : k' ≠ k) (v : TimerState) :
    ∀ l : List (String × TimerState),
      lookupState (updState l k v) k' = lookupState l k' := by
  intro l
  induction l with
  | nil => rfl
  | cons p l ih =>
    by_cases hp : p.1 = k
    · have hk' : ¬ (k = k') := fun hh => h hh.symm
      rw [updState, if_pos hp, lookupState, if_neg hk', lookupState, hp, if_neg hk']
      exact ih
    · by_cases hp' : p.1 = k'
      · rw [updState, if_neg hp, lookupState, if_pos hp', lookupState, if_pos hp']
      · rw [updState, if_neg hp, lookupState, if_neg hp', lookupState, if_neg hp']
        exact ih

/-- Unfolding of the interval-due branch of `tickStep`: an enabled interval
reminder with a truthy deadline that is due gets its side-effect entries and
its state recomputed through the anchor-advance loop. -/
lemma tickStep_interval_due {slept : Bool} {now : Int} {acc : TickOutcome}
    {r : CustomReminder} {st : TimerState} {e nt : Int}
    (hen : r.enabled = true) (hty : r.type = ReminderType.interval)
    (hlk : lookupState acc.states r.id = some st)
    (hend : st.endTime = some e) (hne : e ≠ 0)
    (hdue : ceilDiv (e - now) 1000 ≤ 0)
    (hadv : whileAdvance (r.intervalValue.getD 0 * multiplierOpt r.intervalUnit * 1000) now
        (if e < now - r.intervalValue.getD 0 * multiplierOpt r.intervalUnit * 1000 * 100
         then now else e) = some nt) :
    tickStep slept now acc r = some
      { states := updState acc.states r.id
          { timeLeft := ceilDiv (nt - now) 1000, endTime := some nt },
        alertsToTrigger :=
          if !(slept || decide (ceilDiv (e - now) 1000 < -3)) then
            acc.alertsToTrigger ++ [r.id]
          else acc.alertsToTrigger,
        remindersToRemove := acc.remindersToRemove,
        remindersToUpdate := acc.remindersToUpdate ++ [(r.id, nt)] } := by
  have hio : r.type = ReminderType.onetime → False := by rw [hty]; intro hh; cases hh
  rw [tickStep]
  rw [if_neg (by rw [hen]; intro hh; cases hh)]
  rw [hlk]
  simp only [hend]
  rw [if_neg hne, if_pos hdue, if_pos hty]
  simp only [hadv]
  have hrem :
      (if (!(slept || decide (ceilDiv (e - now) 1000 < -3))) = false ∧
          r.type = ReminderType.onetime then
        acc.remindersToRemove ++ [r.id]
      else acc.remindersToRemove) = acc.remindersToRemove := by
    rw [if_neg]
    intro hh
    exact hio hh.2
  rw [hrem]

/-- C1 (corrected): for an enabled, due Interval reminder with period
`P > 0` whose stored `endTime` `T` is not more than 100 periods in the past,
the recomputed `endTime` is the smallest `T + k·P` (`k ≥ 1`) strictly
greater than `now + 1000` ms.  (As stated the claim fails: for periods
`P ≤ 2000` ms the clock-jump example lands on `T + 5P`, not `T + 4P`, and
for an anchor more than 100 periods stale the advance restarts from `now`;
see the counterexample.) -/
theorem anchor_reschedule_least (slept : Bool) (now P T : Int) (acc : TickOutcome)
    (r : CustomReminder) (st : TimerState)
    (hen : r.enabled = true) (hty : r.type = ReminderType.interval)
    (hP : r.intervalValue.getD 0 * multiplierOpt r.intervalUnit * 1000 = P)
    (hPpos : 0 < P)
    (hlk : lookupState acc.states r.id = some st)
    (hend : st.endTime = some T) (hne : T ≠ 0)
    (hdue : ceilDiv (T - now) 1000 ≤ 0)
    (hfresh : ¬ T < now - P * 100) :
    ∃ o nt, tickStep slept now acc r = some o ∧
      lookupState o.states r.id = some { timeLeft := ceilDiv (nt - now) 1000,
                                         endTime := some nt } ∧
      (r.id, nt) ∈ o.remindersToUpdate ∧
      (∃ k : Nat, 1 ≤ k ∧ nt = T + k * P) ∧ now + 1000 < nt ∧
      (∀ w, (∃ j : Nat, 1 ≤ j ∧ w = T + j * P) → now + 1000 < w → nt ≤ w) := by
  have hTnow : T ≤ now := by
    have := ceilDiv_1000_nonpos.mp hdue
    omega
  obtain ⟨v, hv, hgt, hkform, hmin⟩ := whileAdvance_some_spec hPpos
    (show T ≤ now + 1000 by omega)
  have hadv : whileAdvance (r.intervalValue.getD 0 * multiplierOpt r.intervalUnit * 1000) now
      (if T < now - r.intervalValue.getD 0 * multiplierOpt r.intervalUnit * 1000 * 100
       then now else T) = some v := by
    rw [hP, if_neg hfresh]
    exact hv
  refine ⟨_, v, tickStep_interval_due hen hty hlk hend hne hdue hadv, ?_, ?_, hkform, hgt,
    anchor_minimal hPpos hkform hmin⟩
  · exact lookupState_updState_self hlk
  · simp

/-- Witness for C1 (amended): the spec's clock-jump scenario with a one
minute period, `T = 1000000`, `now = T + 3.5·P`; the reschedule lands on the
least anchor point after `now + 1000`, which here is `T + 4P`. -/
theorem anchor_reschedule_least_witness :
    ∃ o nt,
      tickStep false 1210000
          ⟨[("r1", ⟨0, some 1000000⟩)], [], [], []⟩
          ⟨"r1", "stretch", ReminderType.interval, true, some 1,
            some IntervalUnit.minutes, none, none⟩ = some o ∧
      lookupState o.states "r1" = some { timeLeft := ceilDiv (nt - 1210000) 1000,
                                         endTime := some nt } ∧
      ("r1", nt) ∈ o.remindersToUpdate ∧
      (∃ k : Nat, 1 ≤ k ∧ nt = 1000000 + (k : Int) * 60000) ∧ 1210000 + 1000 < nt ∧
      (∀ w : Int, (∃ j : Nat, 1 ≤ j ∧ w = 1000000 + (j : Int) * 60000) →
        1210000 + 1000 < w → nt ≤ w) :=
  anchor_reschedule_least false 1210000 60000 1000000
    ⟨[("r1", ⟨0, some 1000000⟩)], [], [], []⟩
    ⟨"r1", "stretch", ReminderType.interval, true, some 1, some IntervalUnit.minutes,
      none, none⟩
    ⟨0, some 1000000⟩ rfl rfl (by decide) (by decide) (by decide) rfl (by decide)
    (by decide) (by decide)

/-- Counterexample for C1 as stated.  Scenario one: a one-second period
(`P = 1000`, `T = 100000`) and a clock jump to `now = T + 3.5P = 103500`
produce `endTime = 105000 = T + 5P`, not the claimed `T + 4P = 104000`
(the smallest anchor more than 1 s after `now`).  Scenario two: an anchor
more than 100 periods stale (`T = 50`, `P = 60000`, `now = 6000051`)
produces `endTime = 6060051`, which is not the claimed smallest anchor
point `T + 101·P = 6060050`. -/
theorem anchor_reschedule_counterexample :
    (tickStep false 103500 ⟨[("r1", ⟨0, some 100000⟩)], [], [], []⟩
        ⟨"r1", "sip", ReminderType.interval, true, some 1, some IntervalUnit.seconds,
          none, none⟩ =
      some ⟨[("r1", ⟨2, some 105000⟩)], ["r1"], [], [("r1", 105000)]⟩) ∧
    (105000 : Int) ≠ 100000 + 4 * 1000 ∧
    (tickStep false 6000051 ⟨[("r2", ⟨0, some 50⟩)], [], [], []⟩
        ⟨"r2", "sip", ReminderType.interval, true, some 1, some IntervalUnit.minutes,
          none, none⟩ =
      some ⟨[("r2", ⟨60, some 6060051⟩)], [], [], [("r2", 6060051)]⟩) ∧
    (6060051 : Int) ≠ 50 + 101 * 60000 := by
  refine ⟨by decide, by decide, by decide, by decide⟩

/-- C10 (confirmed): a due, enabled Interval reminder whose stored `endTime`
is more than 100 periods in the past is rescheduled from `now` instead of
from its anchor: the new `endTime` is the smallest `now + k·P` (`k ≥ 1`)
strictly greater than `now + 1000`, so the original phase is discarded. -/
theorem stale_anchor_reset (slept : Bool) (now P T : Int) (acc : TickOutcome)
    (r : CustomReminder) (st : TimerState)
    (hen : r.enabled = true) (hty : r.type = ReminderType.interval)
    (hP : r.intervalValue.getD 0 * multiplierOpt r.intervalUnit * 1000 = P)
    (hPpos : 0 < P)
    (hlk : lookupState acc.states r.id = some st)
    (hend : st.endTime = some T) (hne : T ≠ 0)
    (hstale : T < now - P * 100) :
    ∃ o nt, tickStep slept now acc r = some o ∧
      lookupState o.states r.id = some { timeLeft := ceilDiv (nt - now) 1000,
                                         endTime := some nt } ∧
      (r.id, nt) ∈ o.remindersToUpdate ∧
      (∃ k : Nat, 1 ≤ k ∧ nt = now + k * P) ∧ now + 1000 < nt ∧
      (∀ w, (∃ j : Nat, 1 ≤ j ∧ w = now + j * P) → now + 1000 < w → nt ≤ w) := by
  have hdue : ceilDiv (T - now) 1000 ≤ 0 := by
    rw [ceilDiv_1000_nonpos]
    nlinarith
  obtain ⟨v, hv, hgt, hkform, hmin⟩ := whileAdvance_some_spec hPpos
    (show now ≤ now + 1000 by omega)
  have hadv : whileAdvance (r.intervalValue.getD 0 * multiplierOpt r.intervalUnit * 1000) now
      (if T < now - r.intervalValue.getD 0 * multiplierOpt r.intervalUnit * 1000 * 100
       then now else T) = some v := by
    rw [hP, if_pos hstale]
    exact hv
  refine ⟨_, v, tickStep_interval_due hen hty hlk hend hne hdue hadv, ?_, ?_, hkform, hgt,
    anchor_minimal hPpos hkform hmin⟩
  · exact lookupState_updState_self hlk
  · simp

/-- Witness for C10: a reminder 100+ periods stale (`T = 50`, `P = 60000`,
`now = 6000051`) restarts the advance from `now`. -/
theorem stale_anchor_reset_witness :
    ∃ o nt,
      tickStep false 6000051 ⟨[("r2", ⟨0, some 50⟩)], [], [], []⟩
          ⟨"r2", "rest", ReminderType.interval, true, some 1,
            some IntervalUnit.minutes, none, none⟩ = some o ∧
      lookupState o.states "r2" = some { timeLeft := ceilDiv (nt - 6000051) 1000,
                                         endTime := some nt } ∧
      ("r2", nt) ∈ o.remindersToUpdate ∧
      (∃ k : Nat, 1 ≤ k ∧ nt = 6000051 + (k : Int) * 60000) ∧ 6000051 + 1000 < nt ∧
      (∀ w : Int, (∃ j : Nat, 1 ≤ j ∧ w = 6000051 + (j : Int) * 60000) →
        6000051 + 1000 < w → nt ≤ w) :=
  stale_anchor_reset false 6000051 60000 50
    ⟨[("r2", ⟨0, some 50⟩)], [], [], []⟩
    ⟨"r2", "rest", ReminderType.interval, true, some 1, some IntervalUnit.minutes,
      none, none⟩
    ⟨0, some 50⟩ rfl rfl (by decide) (by decide) (by decide) rfl (by decide) (by decide)

lemma mainTick_status_preserved {s : Settings} {isWork : Bool} {curMin : Int}
    {slept mact : Bool} {now : Int} {m : MainTimer}
    (hni : mainHasInterval s = false) (hm : m.status ≠ AppStatus.alert_active) :
    (mainTick s isWork curMin slept mact now m).1.status ≠ AppStatus.alert_active := by
  simp only [mainTick, startTimersState, hni]
  split_ifs <;> simp_all

lemma mainTick_no_interval_running {s : Settings} {isWork : Bool} {curMin : Int}
    {slept mact : Bool} {now : Int} {m : MainTimer}
    (hni : mainHasInterval s = false) (hae : s.activeHoursEnabled = false)
    (hst : m.status = AppStatus.running) :
    mainTick s isWork curMin slept mact now m =
      ({ status := AppStatus.running, endTime := none, timeLeft := 0 }, false) := by
  obtain ⟨st, et, tl⟩ := m
  simp only [MainTimer.mk.injEq] at hst
  simp [mainTick, hae, hst, hni]

lemma mainTick_frozen_step {s : Settings} {isWork : Bool} {curMin : Int}
    {slept mact : Bool} {now : Int} {m : MainTimer}
    (hi : mainHasInterval s = true) (hnt : mainHasText s = false)
    (hae : s.activeHoursEnabled = false) (hst : m.status = AppStatus.running) :
    mainTick s isWork curMin slept mact now m =
      ({ status := AppStatus.running, endTime := none,
         timeLeft := s.intervalValue.getD 0 * mainMultiplier s.intervalUnit }, false) := by
  obtain ⟨st, et, tl⟩ := m
  simp only [MainTimer.mk.injEq] at hst
  simp [mainTick, hae, hst, hi, hnt]

/-- C3 (confirmed): without a positive interval value `triggerAlert('main')`
returns false, a running tick pins `timeLeft` to 0 with no `endTime`, and no
sequence of ticks can move the status into `alert_active`; with a positive
interval but blank message fragments, every tick pins `timeLeft` to the full
configured duration with no `endTime` (frozen display, no countdown, no
fire). -/
theorem main_reminder_gating :
    (∀ s : Settings, mainHasInterval s = false → triggerAlertMainFires s = false) ∧
    (∀ (s : Settings) (envs : List TickEnv) (m : MainTimer),
      mainHasInterval s = false → m.status ≠ AppStatus.alert_active →
      (mainTickRun s envs m).status ≠ AppStatus.alert_active) ∧
    (∀ (s : Settings) (isWork : Bool) (curMin : Int) (slept mact : Bool) (now : Int)
        (m : MainTimer),
      mainHasInterval s = false → s.activeHoursEnabled = false →
      m.status = AppStatus.running →
      mainTick s isWork curMin slept mact now m =
        ({ status := AppStatus.running, endTime := none, timeLeft := 0 }, false)) ∧
    (∀ (s : Settings) (envs : List TickEnv) (m : MainTimer),
      mainHasInterval s = true → mainHasText s = false → s.activeHoursEnabled = false →
      m.status = AppStatus.running → envs ≠ [] →
      mainTickRun s envs m =
        { status := AppStatus.running, endTime := none,
          timeLeft := s.intervalValue.getD 0 * mainMultiplier s.intervalUnit }) := by
  refine ⟨?_, ?_, ?_, ?_⟩
  · intro s hni
    rw [triggerAlertMainFires, hni]
    rfl
  · intro s envs m hni hm
    induction envs generalizing m with
    | nil => exact hm
    | cons e es ih =>
      rw [mainTickRun, List.foldl_cons]
      exact ih _ (mainTick_status_preserved hni hm)
  · intro s isWork curMin slept mact now m hni hae hst
    exact mainTick_no_interval_running hni hae hst
  · intro s envs m hi hnt hae hst hne
    induction envs generalizing m with
    | nil => exact absurd rfl hne
    | cons e es ih =>
      rw [mainTickRun, List.foldl_cons]
      have hstep := @mainTick_frozen_step s e.isWork e.curMin e.systemSlept
        e.mainAlertActive e.now m hi hnt hae hst
      rw [hstep]
      cases es with
      | nil => rfl
      | cons e2 es2 =>
        exact ih _ rfl (by intro hh; cases hh)

/-- Witness for C3: each part applied to concrete settings — interval unset
(`intervalValue = none`) for the first three parts, interval five minutes
with blank messages for the frozen-display part, over one concrete tick. -/
theorem main_reminder_gating_witness :
    triggerAlertMainFires ⟨none, IntervalUnit.minutes, "a", "b", false, [], []⟩ = false ∧
    (mainTickRun ⟨none, IntervalUnit.minutes, "a", "b", false, [], []⟩
        [⟨true, 600, false, false, 1000⟩] ⟨AppStatus.running, some 500, 7⟩).status ≠
      AppStatus.alert_active ∧
    mainTick ⟨none, IntervalUnit.minutes, "a", "b", false, [], []⟩ true 600 false false 1000
        ⟨AppStatus.running, some 500, 7⟩ =
      ({ status := AppStatus.running, endTime := none, timeLeft := 0 }, false) ∧
    mainTickRun ⟨some 5, IntervalUnit.minutes, " ", "", false, [], []⟩
        [⟨true, 600, false, false, 1000⟩] ⟨AppStatus.running, some 500, 7⟩ =
      { status := AppStatus.running, endTime := none, timeLeft := 300 } :=
  ⟨main_reminder_gating.1 _ rfl,
   main_reminder_gating.2.1 _ _ _ rfl (by decide),
   main_reminder_gating.2.2.1 _ _ _ _ _ _ _ rfl rfl rfl,
   main_reminder_gating.2.2.2 _ _ _ rfl rfl rfl rfl (List.cons_ne_nil _ _)⟩

lemma filter_idem {α : Type} (p : α → Bool) (l : List α) :
    (l.filter p).filter p = l.filter p := by
  induction l with
  | nil => rfl
  | cons a l ih =>
    rw [List.filter_cons]
    split
    · rw [List.filter_cons]
      split
      · rw [ih]
      · simp_all
    · exact ih

lemma dismissReminders_filter_fix (now : Int) (id : String) (l : List CustomReminder) :
    dismissReminders now id (l.filter fun r2 => decide (¬ r2.id = id)) =
      l.filter fun r2 => decide (¬ r2.id = id) := by
  have hf : (l.filter fun r2 => decide (¬ r2.id = id)).find?
      (fun r => decide (r.id = id)) = none := by
    rw [List.find?_eq_none]
    intro x hx
    have := List.of_mem_filter hx
    simp only [decide_eq_true_eq] at this ⊢
    exact this
  rw [dismissReminders, hf]

lemma dismissReminders_idem (now : Int) (id : String) (l : List CustomReminder) :
    dismissReminders now id (dismissReminders now id l) = dismissReminders now id l := by
  cases hf : l.find? (fun r => decide (r.id = id)) with
  | none =>
    have hL : dismissReminders now id l = l := by rw [dismissReminders, hf]
    rw [hL, hL]
  | some r =>
    by_cases hty : r.type = ReminderType.onetime
    · cases ht : r.targetDateTime with
      | none =>
        have hL : dismissReminders now id l = l := by
          rw [dismissReminders, hf]
          simp [hty, ht]
        rw [hL, hL]
      | some t =>
        by_cases hc : t ≠ 0 ∧ t ≤ now + 1000
        · have hL : dismissReminders now id l =
              l.filter fun r2 => decide (¬ r2.id = id) := by
            rw [dismissReminders, hf]
            simp only [hty, ht, if_pos hc, if_true]
          rw [hL, dismissReminders_filter_fix]
        · have hL : dismissReminders now id l = l := by
            rw [dismissReminders, hf]
            simp [hty, ht, hc]
          rw [hL, hL]
    · have hL : dismissReminders now id l = l := by
        rw [dismissReminders, hf]
        simp [hty]
      rw [hL, hL]

lemma dismissReminders_noop (now : Int) (id : String) (l : List CustomReminder)
    (h : ∀ r ∈ l, r.id = id → r.type = ReminderType.onetime →
      ∀ t, r.targetDateTime = some t → t = 0 ∨ now + 1000 < t) :
    dismissReminders now id l = l := by
  cases hf : l.find? (fun r => decide (r.id = id)) with
  | none => rw [dismissReminders, hf]
  | some r =>
    have hmem := List.mem_of_find?_eq_some hf
    have hid : r.id = id := by
      have := List.find?_some hf
      simpa using this
    by_cases hty : r.type = ReminderType.onetime
    · cases ht : r.targetDateTime with
      | none =>
        rw [dismissReminders, hf]
        simp [hty, ht]
      | some t =>
        have := h r hmem hid hty t ht
        rw [dismissReminders, hf]
        simp only [hty, ht, if_true]
        rw [if_neg (by omega)]
    · rw [dismissReminders, hf]
      simp [hty]

lemma dismiss_customReminders (now : Int) (isWork : Bool) (curMin : Int) (id : String)
    (st : EngineState) :
    (dismissNotification now isWork curMin id st).settings.customReminders =
      dismissReminders now id st.settings.customReminders := by
  obtain ⟨⟨iv, iu, mp, ms, ahe, ahr, crs⟩, snaps, alerts, stt, et, tl, tot⟩ := st
  simp only [dismissNotification]
  split
  · split <;> rfl
  · rfl

/-- C4 (corrected): dismissing twice in a row produces the same end state as
dismissing once, for every id and state; and a dismissal whose id is not in
ActiveAlerts, has no snapshot, is not `main` and does not name a spent
OneTime reminder leaves the whole engine state unchanged.  (As stated the
claim fails: dismissing an absent id that names a spent OneTime reminder
still deletes it, and dismissing `main` always restarts the countdown; see
the counterexample.) -/
theorem dismiss_idempotent :
    (∀ (now : Int) (isWork : Bool) (curMin : Int) (id : String) (st : EngineState),
      dismissNotification now isWork curMin id (dismissNotification now isWork curMin id st) =
        dismissNotification now isWork curMin id st) ∧
    (∀ (now : Int) (isWork : Bool) (curMin : Int) (id : String) (st : EngineState),
      id ∉ st.activeAlerts → (∀ p ∈ st.snapshots, p.1 ≠ id) → id ≠ "main" →
      (∀ r ∈ st.settings.customReminders, r.id = id →
        r.type = ReminderType.onetime →
        ∀ t, r.targetDateTime = some t → t = 0 ∨ now + 1000 < t) →
      dismissNotification now isWork curMin id st = st) := by
  constructor
  · intro now isWork curMin id st
    obtain ⟨⟨iv, iu, mp, ms, ahe, ahr, crs⟩, snaps, alerts, stt, et, tl, tot⟩ := st
    by_cases hmain : id = "main"
    · subst hmain
      by_cases hcond : (ahe = true ∧ (isWork = false ∨ isWithinActiveHours curMin ahr = false))
      · simp [dismissNotification, hcond, dismissReminders_idem, filter_idem]
      · simp [dismissNotification, hcond, dismissReminders_idem, filter_idem]
    · simp [dismissNotification, hmain, dismissReminders_idem, filter_idem]
  · intro now isWork curMin id st hal hsnap hmain hrem
    obtain ⟨⟨iv, iu, mp, ms, ahe, ahr, crs⟩, snaps, alerts, stt, et, tl, tot⟩ := st
    have h1 : dismissReminders now id crs = crs := dismissReminders_noop now id crs hrem
    have h2 : snaps.filter (fun p => decide (¬ p.1 = id)) = snaps :=
      List.filter_eq_self.mpr fun p hp => by simpa using hsnap p hp
    have h3 : alerts.filter (fun a => decide (¬ a = id)) = alerts :=
      List.filter_eq_self.mpr fun a ha => by
        simp only [decide_eq_true_eq]
        intro he
        exact hal (he ▸ ha)
    simp only [dismissNotification, if_neg hmain, h1, h2, h3]

/-- Witness for C4: a double dismissal of `main` coincides with a single
one on a concrete state, and dismissing an id that is absent everywhere is
a complete no-op. -/
theorem dismiss_idempotent_witness :
    dismissNotification 1000 true 600 "main"
        (dismissNotification 1000 true 600 "main"
          ⟨⟨some 5, IntervalUnit.minutes, "go", "", false, [], []⟩,
           [("main", ⟨"t", "m"⟩)], ["main"], AppStatus.alert_active, none, 0, 300⟩) =
      dismissNotification 1000 true 600 "main"
        ⟨⟨some 5, IntervalUnit.minutes, "go", "", false, [], []⟩,
         [("main", ⟨"t", "m"⟩)], ["main"], AppStatus.alert_active, none, 0, 300⟩ ∧
    dismissNotification 1000 true 600 "ghost"
        ⟨⟨some 5, IntervalUnit.minutes, "go", "", false, [],
          [⟨"r1", "sip", ReminderType.interval, true, some 1, some IntervalUnit.minutes,
            none, none⟩]⟩,
         [("main", ⟨"t", "m"⟩)], ["main"], AppStatus.running, some 5000, 3, 300⟩ =
      ⟨⟨some 5, IntervalUnit.minutes, "go", "", false, [],
        [⟨"r1", "sip", ReminderType.interval, true, some 1, some IntervalUnit.minutes,
          none, none⟩]⟩,
       [("main", ⟨"t", "m"⟩)], ["main"], AppStatus.running, some 5000, 3, 300⟩ :=
  ⟨dismiss_idempotent.1 1000 true 600 "main" _,
   dismiss_idempotent.2 1000 true 600 "ghost" _ (by decide) (by decide) (by decide)
     (by decide)⟩

/-- Counterexample for C4 as stated: dismissing `"r1"`, an id that is not in
ActiveAlerts (the alert set is empty), is not a no-op — it deletes the spent
OneTime reminder `r1` from the collection. -/
theorem dismiss_noop_counterexample :
    "r1" ∉ (⟨⟨none, IntervalUnit.minutes, "", "", false, [],
        [⟨"r1", "pay bill", ReminderType.onetime, true, none, none, none, some 5000⟩]⟩,
       [], [], AppStatus.idle, none, 0, 0⟩ : EngineState).activeAlerts ∧
    dismissNotification 10000 true 600 "r1"
        ⟨⟨none, IntervalUnit.minutes, "", "", false, [],
          [⟨"r1", "pay bill", ReminderType.onetime, true, none, none, none, some 5000⟩]⟩,
         [], [], AppStatus.idle, none, 0, 0⟩ ≠
      ⟨⟨none, IntervalUnit.minutes, "", "", false, [],
        [⟨"r1", "pay bill", ReminderType.onetime, true, none, none, none, some 5000⟩]⟩,
       [], [], AppStatus.idle, none, 0, 0⟩ :=
  ⟨by decide, by decide⟩

/-- C9 (corrected): dismissing a OneTime reminder deletes it from the
collection exactly when its `targetDateTime` is truthy and at most
`now + 1000` — one second of slack beyond "already elapsed" — and keeps the
collection unchanged otherwise.  (As stated the claim fails: a reminder due
within the next second is still in the future yet deleted; see the
counterexample.) -/
theorem onetime_dismiss_cleanup (now : Int) (isWork : Bool) (curMin : Int) (id : String)
    (st : EngineState) (r : CustomReminder)
    (hf : st.settings.customReminders.find? (fun r2 => decide (r2.id = id)) = some r)
    (hty : r.type = ReminderType.onetime) :
    (∀ t, r.targetDateTime = some t → t ≠ 0 → t ≤ now + 1000 →
      ∀ r2 ∈ (dismissNotification now isWork curMin id st).settings.customReminders,
        r2.id ≠ id) ∧
    ((∀ t, r.targetDateTime = some t → t = 0 ∨ now + 1000 < t) →
      (dismissNotification now isWork curMin id st).settings.customReminders =
        st.settings.customReminders) := by
  rw [dismiss_customReminders]
  constructor
  · intro t ht htne htle r2 hr2
    rw [dismissReminders, hf] at hr2
    simp only [hty, ht, if_pos (And.intro htne htle), if_true] at hr2
    have := List.of_mem_filter hr2
    simpa using this
  · intro h2
    cases ht : r.targetDateTime with
    | none =>
      rw [dismissReminders, hf]
      simp [hty, ht]
    | some t =>
      have := h2 t ht
      rw [dismissReminders, hf]
      simp only [hty, ht, if_true]
      rw [if_neg (by omega)]

/-- Witness for C9: dismissing a OneTime reminder whose target (20 s) lies
more than a second after the dismissal time (10 s) keeps the reminder
collection unchanged. -/
theorem onetime_dismiss_cleanup_witness :
    (dismissNotification 10000 true 600 "r1"
        ⟨⟨none, IntervalUnit.minutes, "", "", false, [],
          [⟨"r1", "meet", ReminderType.onetime, true, none, none, none, some 20000⟩]⟩,
         [("r1", ⟨"t", "m"⟩)], ["r1"], AppStatus.idle, none, 0, 0⟩).settings.customReminders =
      [⟨"r1", "meet", ReminderType.onetime, true, none, none, none, some 20000⟩] :=
  (onetime_dismiss_cleanup 10000 true 600 "r1"
      ⟨⟨none, IntervalUnit.minutes, "", "", false, [],
        [⟨"r1", "meet", ReminderType.onetime, true, none, none, none, some 20000⟩]⟩,
       [("r1", ⟨"t", "m"⟩)], ["r1"], AppStatus.idle, none, 0, 0⟩
      ⟨"r1", "meet", ReminderType.onetime, true, none, none, none, some 20000⟩
      (by decide) rfl).2
    (fun t ht => by injection ht with ht; omega)

/-- Counterexample for C9 as stated: a OneTime reminder whose
`targetDateTime` (10500) is still strictly in the future at dismissal time
(10000) is nevertheless deleted, because the code deletes up to one second
early (`targetDateTime <= now + 1000`). -/
theorem onetime_dismiss_counterexample :
    (10000 : Int) < 10500 ∧
    (dismissNotification 10000 true 600 "r1"
        ⟨⟨none, IntervalUnit.minutes, "", "", false, [],
          [⟨"r1", "meet", ReminderType.onetime, true, none, none, none, some 10500⟩]⟩,
         [("r1", ⟨"t", "m"⟩)], ["r1"], AppStatus.idle, none, 0, 0⟩).settings.customReminders
      = [] :=
  ⟨by decide, by decide⟩

/-- The fold underlying `processTick`, with an explicit accumulator. -/
def tickFold (slept : Bool) (now : Int) (rs : List CustomReminder)
    (acc : Option TickOutcome) : Option TickOutcome :=
  rs.foldl (fun a r => a.bind fun o => tickStep slept now o r) acc

lemma processTick_eq_tickFold (slept : Bool) (now : Int) (rs : List CustomReminder)
    (init : List (String × TimerState)) :
    processTick slept now rs init =
      tickFold slept now rs (some ⟨init, [], [], []⟩) := rfl

lemma tickFold_none (slept : Bool) (now : Int) (rs : List CustomReminder) :
    tickFold slept now rs none = none := by
  induction rs with
  | nil => rfl
  | cons r rs ih => exact ih

lemma tickFold_cons (slept : Bool) (now : Int) (r : CustomReminder)
    (rs : List CustomReminder) (o : TickOutcome) :
    tickFold slept now (r :: rs) (some o) =
      tickFold slept now rs (tickStep slept now o r) := rfl

lemma tickStep_slept_alerts {now : Int} {acc o : TickOutcome} {r : CustomReminder}
    (h : tickStep true now acc r = some o) :
    o.alertsToTrigger = acc.alertsToTrigger := by
  simp only [tickStep] at h
  repeat' split at h
  all_goals first
    | exact Option.noConfusion h
    | (injection h with h; subst h;
       first
         | rfl
         | simp_all)

lemma tickStep_removes_sub {slept : Bool} {now : Int} {acc o : TickOutcome}
    {r : CustomReminder} (h : tickStep slept now acc r = some o) :
    acc.remindersToRemove ⊆ o.remindersToRemove := by
  simp only [tickStep] at h
  repeat' split at h
  all_goals first
    | exact Option.noConfusion h
    | (injection h with h; subst h;
       first
         | exact List.Subset.refl _
         | exact List.subset_append_left _ _)

lemma tickStep_updates_sub {slept : Bool} {now : Int} {acc o : TickOutcome}
    {r : CustomReminder} (h : tickStep slept now acc r = some o) :
    acc.remindersToUpdate ⊆ o.remindersToUpdate := by
  simp only [tickStep] at h
  repeat' split at h
  all_goals first
    | exact Option.noConfusion h
    | (injection h with h; subst h;
       first
         | exact List.Subset.refl _
         | exact List.subset_append_left _ _)

lemma tickStep_states_other {slept : Bool} {now : Int} {acc o : TickOutcome}
    {r : CustomReminder} (h : tickStep slept now acc r = some o) :
    ∀ k, k ≠ r.id → lookupState o.states k = lookupState acc.states k := by
  intro k hk
  simp only [tickStep] at h
  repeat' split at h
  all_goals first
    | exact Option.noConfusion h
    | (injection h with h; subst h;
       first
         | rfl
         | exact lookupState_updState_ne hk _ _)

/-- Unfolding of the due branch of `tickStep` when alerting is suppressed
(the tick slept, or the reminder is more than 3 s overdue): no alert entry is
added, a OneTime reminder is marked for removal with its state cleared, and
an Interval reminder is rescheduled through the anchor-advance loop. -/
lemma tickStep_due {slept : Bool} {now : Int} {acc o : TickOutcome} {r : CustomReminder}
    {st : TimerState} {e : Int}
    (h : tickStep slept now acc r = some o)
    (hen : r.enabled = true)
    (hlk : lookupState acc.states r.id = some st)
    (hend : st.endTime = some e) (hne : e ≠ 0)
    (hdue : ceilDiv (e - now) 1000 ≤ 0)
    (hsup : slept = true ∨ ceilDiv (e - now) 1000 < -3) :
    o.alertsToTrigger = acc.alertsToTrigger ∧
    (r.type = ReminderType.onetime →
      r.id ∈ o.remindersToRemove ∧
      lookupState o.states r.id = some { timeLeft := 0, endTime := none }) ∧
    (r.type = ReminderType.interval →
      ∃ nt, (r.id, nt) ∈ o.remindersToUpdate ∧ now + 1000 < nt ∧
        lookupState o.states r.id = some { timeLeft := ceilDiv (nt - now) 1000,
                                           endTime := some nt }) := by
  have hsa : (!(slept || decide (ceilDiv (e - now) 1000 < -3))) = false := by
    rcases hsup with h1 | h1 <;> simp [h1]
  rw [tickStep] at h
  rw [if_neg (by simp [hen])] at h
  rw [hlk] at h
  simp only [hend] at h
  rw [if_neg hne, if_pos hdue] at h
  by_cases hty : r.type = ReminderType.interval
  · rw [if_pos hty] at h
    cases hadv : whileAdvance (r.intervalValue.getD 0 * multiplierOpt r.intervalUnit * 1000)
        now (if e < now - r.intervalValue.getD 0 * multiplierOpt r.intervalUnit * 1000 * 100
             then now else e) with
    | none =>
      simp only [hadv] at h
      exact Option.noConfusion h
    | some nt =>
      simp only [hadv] at h
      injection h with h
      subst h
      refine ⟨by simp [hsa], ?_, ?_⟩
      · intro hty2
        rw [hty] at hty2
        cases hty2
      · intro _
        refine ⟨nt, by simp, ?_, lookupState_updState_self hlk⟩
        have hele : e ≤ now := by
          have := ceilDiv_1000_nonpos.mp hdue
          omega
        have ht1 : (if e < now - r.intervalValue.getD 0 * multiplierOpt r.intervalUnit
            * 1000 * 100 then now else e) ≤ now + 1000 := by
          split <;> omega
        exact whileAdvance_some_gt hadv ht1
  · rw [if_neg hty] at h
    injection h with h
    subst h
    have htyo : r.type = ReminderType.onetime := by
      cases hh : r.type
      · exact absurd hh hty
      · rfl
    refine ⟨by simp [hsa], ?_, fun hty2 => absurd hty2 hty⟩
    intro _
    exact ⟨by simp [hsa, htyo], lookupState_updState_self hlk⟩

lemma tickFold_alerts (now : Int) :
    ∀ (rs : List CustomReminder) (acc o : TickOutcome),
      tickFold true now rs (some acc) = some o →
      o.alertsToTrigger = acc.alertsToTrigger := by
  intro rs
  induction rs with
  | nil =>
    intro acc o h
    injection h with h
    subst h
    rfl
  | cons r rs ih =>
    intro acc o h
    rw [tickFold_cons] at h
    cases hts : tickStep true now acc r with
    | none => rw [hts, tickFold_none] at h; exact Option.noConfusion h
    | some o1 =>
      rw [hts] at h
      rw [ih o1 o h, tickStep_slept_alerts hts]

lemma tickFold_removes_sub (slept : Bool) (now : Int) :
    ∀ (rs : List CustomReminder) (acc o : TickOutcome),
      tickFold slept now rs (some acc) = some o →
      acc.remindersToRemove ⊆ o.remindersToRemove := by
  intro rs
  induction rs with
  | nil =>
    intro acc o h
    injection h with h
    subst h
    exact List.Subset.refl _
  | cons r rs ih =>
    intro acc o h
    rw [tickFold_cons] at h
    cases hts : tickStep slept now acc r with
    | none => rw [hts, tickFold_none] at h; exact Option.noConfusion h
    | some o1 =>
      rw [hts] at h
      exact List.Subset.trans (tickStep_removes_sub hts) (ih o1 o h)

lemma tickFold_updates_sub (slept : Bool) (now : Int) :
    ∀ (rs : List CustomReminder) (acc o : TickOutcome),
      tickFold slept now rs (some acc) = some o →
      acc.remindersToUpdate ⊆ o.remindersToUpdate := by
  intro rs
  induction rs with
  | nil =>
    intro acc o h
    injection h with h
    subst h
    exact List.Subset.refl _
  | cons r rs ih =>
    intro acc o h
    rw [tickFold_cons] at h
    cases hts : tickStep slept now acc r with
    | none => rw [hts, tickFold_none] at h; exact Option.noConfusion h
    | some o1 =>
      rw [hts] at h
      exact List.Subset.trans (tickStep_updates_sub hts) (ih o1 o h)

lemma tickFold_states_untouched (slept : Bool) (now : Int) :
    ∀ (rs : List CustomReminder) (acc o : TickOutcome) (k : String),
      tickFold slept now rs (some acc) = some o →
      (∀ r ∈ rs, r.id ≠ k) →
      lookupState o.states k = lookupState acc.states k := by
  intro rs
  induction rs with
  | nil =>
    intro acc o k h _
    injection h with h
    subst h
    rfl
  | cons r rs ih =>
    intro acc o k h hk
    rw [tickFold_cons] at h
    cases hts : tickStep slept now acc r with
    | none => rw [hts, tickFold_none] at h; exact Option.noConfusion h
    | some o1 =>
      rw [hts] at h
      rw [ih o1 o k h fun r' hr' => hk r' (List.mem_cons_of_mem r hr'),
        tickStep_states_other hts k (fun he => hk r (List.mem_cons_self r rs) he.symm)]

lemma tickFold_due_all (now : Int) :
    ∀ (rs : List CustomReminder) (acc o : TickOutcome),
      tickFold true now rs (some acc) = some o →
      (rs.map fun r => r.id).Nodup →
      ∀ r ∈ rs, r.enabled = true →
      ∀ st e, lookupState acc.states r.id = some st → st.endTime = some e → e ≠ 0 →
        ceilDiv (e - now) 1000 ≤ 0 →
        (r.type = ReminderType.onetime → r.id ∈ o.remindersToRemove) ∧
        (r.type = ReminderType.interval →
          ∃ nt, (r.id, nt) ∈ o.remindersToUpdate ∧ now + 1000 < nt ∧
            lookupState o.states r.id = some { timeLeft := ceilDiv (nt - now) 1000,
                                               endTime := some nt }) := by
  intro rs
  induction rs with
  | nil => intro acc o h hnd r hr; cases hr
  | cons r0 rs ih =>
    intro acc o h hnd r hr hen st e hlk hend hne hdue
    rw [tickFold_cons] at h
    cases hts : tickStep true now acc r0 with
    | none => rw [hts, tickFold_none] at h; exact Option.noConfusion h
    | some o1 =>
      rw [hts] at h
      rw [List.map_cons, List.nodup_cons] at hnd
      obtain ⟨hnotin, hnd'⟩ := hnd
      rcases List.mem_cons.mp hr with rfl | hr'
      · have hstep := tickStep_due hts hen hlk hend hne hdue (Or.inl rfl)
        obtain ⟨_, h1, hI⟩ := hstep
        constructor
        · intro hty
          exact tickFold_removes_sub _ _ _ _ _ h (h1 hty).1
        · intro hty
          obtain ⟨nt, hmem, hgt, hlko1⟩ := hI hty
          refine ⟨nt, tickFold_updates_sub _ _ _ _ _ h hmem, hgt, ?_⟩
          have huntouched : ∀ r' ∈ rs, r'.id ≠ r.id := by
            intro r' hr' heq
            exact hnotin (heq ▸ List.mem_map_of_mem _ hr')
          rw [tickFold_states_untouched _ _ _ _ _ _ h huntouched, hlko1]
      · have hneq : r.id ≠ r0.id := by
          intro heq
          exact hnotin (heq ▸ List.mem_map_of_mem _ hr')
        have hlk1 : lookupState o1.states r.id = some st := by
          rw [tickStep_states_other hts r.id hneq, hlk]
        exact ih o1 o h hnd' r hr' hen st e hlk1 hend hne hdue

lemma applyTick_alerts_unchanged (o : TickOutcome) (rs : List CustomReminder)
    (alerts : List String) (h : o.alertsToTrigger = []) :
    (applyTickSideEffects o rs alerts).2 = alerts := by
  simp only [applyTickSideEffects, h]
  rfl

lemma applyTick_removed (o : TickOutcome) (rs : List CustomReminder)
    (alerts : List String) {idv : String} (h : idv ∈ o.remindersToRemove) :
    ∀ r2 ∈ (applyTickSideEffects o rs alerts).1, r2.id ≠ idv := by
  intro r2 hr2 heq
  simp only [applyTickSideEffects] at hr2
  obtain ⟨r3, hr3, hmap⟩ := List.mem_map.mp hr2
  have h3 := List.of_mem_filter hr3
  simp only [decide_eq_true_eq] at h3
  have hid : r2.id = r3.id := by
    cases hfind : o.remindersToUpdate.find? (fun u => decide (u.1 = r3.id)) with
    | some u =>
      rw [hfind] at hmap
      rw [← hmap]
    | none =>
      rw [hfind] at hmap
      rw [← hmap]
  exact h3 (by rw [← hid, heq]; exact h)

/-- C2 (corrected): on a tick the engine deems slept, no alert is emitted
for any custom reminder (`alertsToTrigger` is empty and ActiveAlerts is
unchanged); every due Interval reminder is still rescheduled by the anchor
rule to an `endTime` strictly more than one second in the future; and every
due OneTime reminder is removed from the reminder collection without ever
entering ActiveAlerts.  Severe overdue, by contrast, suppresses only the
overdue reminder itself: on a non-slept tick a due reminder more than 3 s
past its deadline fires no alert (and a OneTime one is marked for removal),
but other due reminders on the same tick still alert (see the
counterexample). -/
theorem sleep_suppression :
    (∀ (now : Int) (rs : List CustomReminder) (init : List (String × TimerState))
        (o : TickOutcome) (alerts : List String),
      processTick true now rs init = some o →
      o.alertsToTrigger = [] ∧
      (applyTickSideEffects o rs alerts).2 = alerts ∧
      ((rs.map fun r => r.id).Nodup →
        ∀ r ∈ rs, r.enabled = true →
        ∀ st e, lookupState init r.id = some st → st.endTime = some e → e ≠ 0 →
          ceilDiv (e - now) 1000 ≤ 0 →
          (r.type = ReminderType.onetime →
            r.id ∈ o.remindersToRemove ∧
            ∀ r2 ∈ (applyTickSideEffects o rs alerts).1, r2.id ≠ r.id) ∧
          (r.type = ReminderType.interval →
            ∃ nt, (r.id, nt) ∈ o.remindersToUpdate ∧ now + 1000 < nt ∧
              lookupState o.states r.id = some { timeLeft := ceilDiv (nt - now) 1000,
                                                 endTime := some nt }))) ∧
    (∀ (now : Int) (acc o : TickOutcome) (r : CustomReminder) (st : TimerState) (e : Int),
      tickStep false now acc r = some o → r.enabled = true →
      lookupState acc.states r.id = some st → st.endTime = some e → e ≠ 0 →
      ceilDiv (e - now) 1000 < -3 →
      o.alertsToTrigger = acc.alertsToTrigger ∧
      (r.type = ReminderType.onetime → r.id ∈ o.remindersToRemove)) := by
  constructor
  · intro now rs init o alerts h
    rw [processTick_eq_tickFold] at h
    have halerts : o.alertsToTrigger = [] := tickFold_alerts now rs _ o h
    refine ⟨halerts, applyTick_alerts_unchanged o rs alerts halerts, ?_⟩
    intro hnd r hr hen st e hlk hend hne hdue
    have hmain := tickFold_due_all now rs _ o h hnd r hr hen st e hlk hend hne hdue
    exact ⟨fun hty => ⟨hmain.1 hty, applyTick_removed o rs alerts (hmain.1 hty)⟩, hmain.2⟩
  · intro now acc o r st e h hen hlk hend hne hover
    have hdue : ceilDiv (e - now) 1000 ≤ 0 := by omega
    have hstep := tickStep_due h hen hlk hend hne hdue (Or.inr hover)
    exact ⟨hstep.1, fun hty => (hstep.2.1 hty).1⟩

/-- Witness for C2 (amended): a slept tick over one due OneTime reminder and
one due Interval reminder — nothing alerts, the OneTime reminder is marked
for removal, the Interval reminder is rescheduled one minute ahead. -/
theorem sleep_suppression_witness :
    processTick true 1000000
        [⟨"o1", "call", ReminderType.onetime, true, none, none, none, some 999000⟩,
         ⟨"i1", "water", ReminderType.interval, true, some 1, some IntervalUnit.minutes,
           none, none⟩]
        [("o1", ⟨0, some 999000⟩), ("i1", ⟨0, some 1000000⟩)] =
      some ⟨[("o1", ⟨0, none⟩), ("i1", ⟨60, some 1060000⟩)], [], ["o1"],
            [("i1", 1060000)]⟩ ∧
    (⟨[("o1", ⟨0, none⟩), ("i1", ⟨60, some 1060000⟩)], [], ["o1"],
       [("i1", 1060000)]⟩ : TickOutcome).alertsToTrigger = [] ∧
    (applyTickSideEffects
        ⟨[("o1", ⟨0, none⟩), ("i1", ⟨60, some 1060000⟩)], [], ["o1"], [("i1", 1060000)]⟩
        [⟨"o1", "call", ReminderType.onetime, true, none, none, none, some 999000⟩,
         ⟨"i1", "water", ReminderType.interval, true, some 1, some IntervalUnit.minutes,
           none, none⟩]
        ["existing"]).2 = ["existing"] :=
  ⟨by decide,
   (sleep_suppression.1 1000000
      [⟨"o1", "call", ReminderType.onetime, true, none, none, none, some 999000⟩,
       ⟨"i1", "water", ReminderType.interval, true, some 1, some IntervalUnit.minutes,
         none, none⟩]
      [("o1", ⟨0, some 999000⟩), ("i1", ⟨0, some 1000000⟩)]
      ⟨[("o1", ⟨0, none⟩), ("i1", ⟨60, some 1060000⟩)], [], ["o1"], [("i1", 1060000)]⟩
      ["existing"] (by decide)).1,
   (sleep_suppression.1 1000000
      [⟨"o1", "call", ReminderType.onetime, true, none, none, none, some 999000⟩,
       ⟨"i1", "water", ReminderType.interval, true, some 1, some IntervalUnit.minutes,
         none, none⟩]
      [("o1", ⟨0, some 999000⟩), ("i1", ⟨0, some 1000000⟩)]
      ⟨[("o1", ⟨0, none⟩), ("i1", ⟨60, some 1060000⟩)], [], ["o1"], [("i1", 1060000)]⟩
      ["existing"] (by decide)).2.1⟩

/-- Counterexample for C2 as stated: on a non-slept tick where reminder `A`
is due and severely overdue (10 s past, so `diff = -10 < -3`) while reminder
`B` is due exactly now, the engine still emits an alert for `B` — the claim
"no alert is emitted for any custom reminder that is due on that tick" fails
under the severe-overdue disjunct. -/
theorem sleep_suppression_counterexample :
    ceilDiv ((990000 : Int) - 1000000) 1000 < -3 ∧
    ceilDiv ((1000000 : Int) - 1000000) 1000 ≤ 0 ∧
    processTick false 1000000
        [⟨"A", "water", ReminderType.interval, true, some 1, some IntervalUnit.minutes,
           none, none⟩,
         ⟨"B", "stand", ReminderType.interval, true, some 1, some IntervalUnit.minutes,
           none, none⟩]
        [("A", ⟨0, some 990000⟩), ("B", ⟨0, some 1000000⟩)] =
      some ⟨[("A", ⟨50, some 1050000⟩), ("B", ⟨60, some 1060000⟩)], ["B"], [],
            [("A", 1050000), ("B", 1060000)]⟩ :=
  ⟨by decide, by decide, by decide⟩

end ReminderAI
